import Mathlib

/-!
Verification of the SpaceApps2025 utility scripts.

This file gives a shallow embedding of the three Python scripts
(`gibs_farm_downloader.py`, `screenshots.py`, `kml_to_postgis.py`) and
proves properties of the embedded functions.  Python floating point
arithmetic is modelled over the real numbers; the grid/counting
arithmetic of the tiled download method is modelled over the rationals
and the integers so that it stays decidable.
-/

namespace SpaceApps

/-! ### Bounding-box geometry (`GIBSFarmImageDownloader.calculate_bbox_from_point`) -/

/-- Earth radius in meters, as used by `calculate_bbox_from_point`. -/
def earthRadius : ℝ := 6371000

/-- `math.radians` : degrees to radians. -/
noncomputable def radians (deg : ℝ) : ℝ := deg * Real.pi / 180

/-- `meters_per_deg_lat = (2 * math.pi * R) / 360`. -/
noncomputable def meters_per_deg_lat : ℝ := (2 * Real.pi * earthRadius) / 360

/-- `meters_per_deg_lon = (2 * math.pi * R * math.cos(math.radians(lat))) / 360`. -/
noncomputable def meters_per_deg_lon (lat : ℝ) : ℝ :=
  (2 * Real.pi * earthRadius * Real.cos (radians lat)) / 360

/-- Embedding of `calculate_bbox_from_point(lat, lon, width_meters, height_meters)`:
returns `(min_lon, min_lat, max_lon, max_lat)`. -/
noncomputable def calculate_bbox_from_point (lat lon width_meters height_meters : ℝ) :
    ℝ × ℝ × ℝ × ℝ :=
  let half_width_deg := (width_meters / 2) / meters_per_deg_lon lat
  let half_height_deg := (height_meters / 2) / meters_per_deg_lat
  (lon - half_width_deg, lat - half_height_deg, lon + half_width_deg, lat + half_height_deg)

/-! ### Pixel statistics (`numpy` mean / population std, as used on decoded images) -/

/-- `pixels.mean()` : arithmetic mean of the (flattened) pixel values. -/
noncomputable def mean (l : List ℝ) : ℝ := l.sum / l.length

/-- Population variance, the quantity under the square root in `numpy.std`. -/
noncomputable def pixVariance (l : List ℝ) : ℝ :=
  ((l.map fun x => (x - mean l) ^ 2).sum) / l.length

/-- `pixels.std()` : population standard deviation (`ddof = 0`). -/
noncomputable def std (l : List ℝ) : ℝ := Real.sqrt (pixVariance l)

/-- The probe acceptance test in `find_best_landsat_date`:
`pixels.mean() > 10 and pixels.std() > 5`. -/
def probeAccepts (l : List ℝ) : Prop := 10 < mean l ∧ 5 < std l

/-- The blankness re-check applied by `download_landsat_closeup` to the
full-resolution image: `pixels.mean() < 5 or pixels.std() < 2`. -/
def fullImageBlank (l : List ℝ) : Prop := mean l < 5 ∨ std l < 2

/-! ### Zoom calculation (`screenshots.calculate_zoom`) -/

/-- Embedding of `calculate_zoom(area_m2)`.  `none` models the raised
`ValueError`; otherwise the function returns
`max(15, min(20, 19 - area_m2 ** 0.5 / 100)) + 1`. -/
noncomputable def calculate_zoom (area_m2 : ℝ) : Option ℝ :=
  if area_m2 ≤ 0 then none
  else some (max 15 (min 20 (19 - Real.sqrt area_m2 / 100)) + 1)

/-! ### Candidate dates (`find_best_landsat_date`, monthly branch)

Dates are modelled at day granularity as integers (days since an epoch);
`now` stands for `datetime.now()` and subtraction of `timedelta(days=d)`
is integer subtraction. -/

/-- The monthly-cadence candidate list: `current - timedelta(days=i*30)` for
`i in range(6)`, in loop order (most recent first). -/
def datesToTryMonthly (now : ℤ) : List ℤ :=
  (List.range 6).map fun (i : ℕ) => now - 30 * (i : ℤ)

/-- The probing loop of `find_best_landsat_date` for a monthly layer: the
candidate dates are tested in order and the first one whose probe tile passes
the acceptance test is returned.  The acceptance test (network request, image
decode, mean/std check) is abstracted as the boolean `accept`; a network or
decode error on a date counts as `accept = false` for that date. -/
def find_best_landsat_date (accept : ℤ → Bool) (now : ℤ) : Option ℤ :=
  (datesToTryMonthly now).find? accept

/-! ### The static layer table (`GIBSFarmImageDownloader.LAYERS`) -/

/-- One entry of the `LAYERS` dictionary. -/
structure LayerInfo where
  name : String
  resolution : ℕ
  temporal : String
  description : String
  deriving DecidableEq

/-- The `LAYERS` dictionary, as an association list in source order. -/
def LAYERS : List (String × LayerInfo) :=
  [("landsat_weld",
    ⟨"Landsat_WELD_CorrectedReflectance_TrueColor_Global_Monthly", 30, "monthly",
     "Landsat WELD monthly composite - Best for consistent coverage"⟩),
   ("landsat_weld_annual",
    ⟨"Landsat_WELD_CorrectedReflectance_TrueColor_Global_Annual", 30, "annual",
     "Landsat WELD annual composite - Most stable, less recent"⟩),
   ("hls_landsat",
    ⟨"HLS_False_Color_Landsat", 30, "daily", "Harmonized Landsat - More recent data"⟩),
   ("hls_sentinel",
    ⟨"HLS_False_Color_Sentinel", 30, "daily", "Harmonized Sentinel - More frequent updates"⟩),
   ("hls_s30",
    ⟨"HLS_S30_Nadir_BRDF_Adjusted_Reflectance", 30, "daily",
     "HLS S30 - Adjusted for viewing angle"⟩),
   ("hls_l30",
    ⟨"HLS_L30_Nadir_BRDF_Adjusted_Reflectance", 30, "daily",
     "HLS L30 - Landsat adjusted reflectance"⟩),
   ("viirs_noaa20",
    ⟨"VIIRS_NOAA20_CorrectedReflectance_TrueColor", 375, "daily",
     "VIIRS - Daily updates, lower resolution fallback"⟩),
   ("modis_terra",
    ⟨"MODIS_Terra_CorrectedReflectance_TrueColor", 250, "daily",
     "MODIS - Daily updates, moderate resolution"⟩)]

/-- The layer-key sanitation at the top of `download_landsat_closeup`:
`if layer_key not in self.LAYERS: layer_key = 'landsat_weld'`. -/
def resolveLayerKey (layer_key : String) : String :=
  if (LAYERS.lookup layer_key).isSome then layer_key else "landsat_weld"

/-! ### Vector import pipeline (`kml_to_postgis.py`)

A geometry is modelled as a list of coordinate tuples; a coordinate tuple
carries an optional Z (3D point) or no Z (already 2D).  Reading a layer is
external (geopandas), so each layer of the input file is given together with
its read outcome: an error, or its list of features. -/

/-- A coordinate tuple `(x, y)` or `(x, y, z)`. -/
abbrev Point3 : Type := ℝ × ℝ × Option ℝ

/-- A feature geometry: a list of coordinate tuples. -/
abbrev Feature : Type := List Point3

/-- `shapely.ops.transform(lambda x, y, z=None: (x, y), ...)` applied to one
coordinate tuple: keep `x` and `y`, drop any `z`. -/
def stripZ (p : Point3) : ℝ × ℝ := (p.1, p.2.1)

/-- One iteration of the layer loop: a layer whose read raised is skipped
(`except ... continue`), a layer with zero features is skipped, and an
ordinary layer contributes its features tagged with the layer name, each
geometry forced to 2D. -/
def processLayer (layer : String) (r : Except String (List Feature)) :
    List (String × List (ℝ × ℝ)) :=
  match r with
  | Except.error _ => []
  | Except.ok fs => if fs.isEmpty then [] else fs.map fun f => (layer, f.map stripZ)

/-- The rows of `combined_gdf = pd.concat(gdfs, ignore_index=True)`: the
surviving layers concatenated in enumeration order, row order preserved. -/
def combineLayers (layers : List (String × Except String (List Feature))) :
    List (String × List (ℝ × ℝ)) :=
  (layers.map fun l => processLayer l.1 l.2).flatten

/-- The outcome of the whole script: writes the combined table when `gdfs`
is non-empty (`if gdfs:`), otherwise ends in the failure branch
(`No valid layers found to import`). -/
def importResult (layers : List (String × Except String (List Feature))) :
    Except String (List (String × List (ℝ × ℝ))) :=
  if (combineLayers layers).isEmpty then Except.error "No valid layers found to import"
  else Except.ok (combineLayers layers)

/-! ### Tiled download (`download_with_tile_method`)

Grid arithmetic is over `ℚ`/`ℤ` (Python float division then `int()`
truncation).  The canvas is a pixel function with explicit width and
height; `PILImage.new('RGB', ...)` starts all black (pixel value 0). -/

/-- Python `int(...)` on a rational value: truncation toward zero. -/
def int_trunc (q : ℚ) : ℤ := if 0 ≤ q then ⌊q⌋ else ⌈q⌉

/-- `tile_size_meters = 150`. -/
def tile_size_meters : ℚ := 150

/-- `tiles_x = max(1, int(width_meters / tile_size_meters))`. -/
def tiles_x (width_meters : ℚ) : ℤ := max 1 (int_trunc (width_meters / tile_size_meters))

/-- `tiles_y = max(1, int(height_meters / tile_size_meters))`. -/
def tiles_y (height_meters : ℚ) : ℤ := max 1 (int_trunc (height_meters / tile_size_meters))

/-- `pixels_per_tile = 1024`. -/
def pixels_per_tile : ℕ := 1024

/-- An in-memory raster: width, height and a pixel function. -/
structure Img where
  width : ℕ
  height : ℕ
  pix : ℕ → ℕ → ℕ

/-- `PILImage.new('RGB', (w, h))`: an all-black canvas. -/
def blankImg (w h : ℕ) : Img := ⟨w, h, fun _ _ => 0⟩

/-- `canvas.paste(tile, (x0, y0))`: pixels inside the pasted rectangle come
from the tile, all others are unchanged. -/
def pasteImg (canvas tile : Img) (x0 y0 : ℕ) : Img :=
  ⟨canvas.width, canvas.height, fun x y =>
    if x0 ≤ x ∧ x < x0 + tile.width ∧ y0 ≤ y ∧ y < y0 + tile.height then
      tile.pix (x - x0) (y - y0)
    else canvas.pix x y⟩

/-- The `(row, col)` pairs visited by the nested tile loops, in loop order. -/
def tileGrid (ty tx : ℕ) : List (ℕ × ℕ) :=
  (List.range ty).flatMap fun row => (List.range tx).map fun col => (row, col)

/-- The body of the tile loop: a tile whose request and decode succeed is
pasted at `(col * pixels_per_tile, (tiles_y - row - 1) * pixels_per_tile)`
and counted; a failed tile (`except` branch) leaves the canvas and the
counter unchanged. -/
def tileStep (ty : ℕ) (tileRes : ℕ → ℕ → Option Img) (acc : Img × ℕ) (rc : ℕ × ℕ) :
    Img × ℕ :=
  match tileRes rc.1 rc.2 with
  | some t =>
      (pasteImg acc.1 t (rc.2 * pixels_per_tile) ((ty - rc.1 - 1) * pixels_per_tile),
       acc.2 + 1)
  | none => acc

/-- The whole tile loop of `download_with_tile_method`: starting from the
all-black canvas `PILImage.new('RGB', (pixels_per_tile * tiles_x,
pixels_per_tile * tiles_y))` and `successful = 0`, run `tileStep` over the
grid in loop order; returns the final canvas and the `successful` counter. -/
def tileFold (width_meters height_meters : ℚ) (tileRes : ℕ → ℕ → Option Img) : Img × ℕ :=
  (tileGrid (tiles_y height_meters).toNat (tiles_x width_meters).toNat).foldl
    (tileStep (tiles_y height_meters).toNat tileRes)
    (blankImg (pixels_per_tile * (tiles_x width_meters).toNat)
      (pixels_per_tile * (tiles_y height_meters).toNat), 0)

/-- Embedding of `download_with_tile_method`.  The per-tile download outcome
(HTTP request + decode) is abstracted as `tileRes`; `none` is a failed tile.
Returns the stitched image when `successful > 0`, otherwise the raised
`Failed to download any tiles` exception. -/
def download_with_tile_method (width_meters height_meters : ℚ)
    (tileRes : ℕ → ℕ → Option Img) : Except String Img :=
  if 0 < (tileFold width_meters height_meters tileRes).2 then
    Except.ok (tileFold width_meters height_meters tileRes).1
  else Except.error "Failed to download any tiles"

/-- `tile_height_deg = (full_bbox[3] - full_bbox[1]) / tiles_y`: the latitude
extent of one tile, from the full bounding box of the requested area. -/
noncomputable def tile_height_deg (lat lon : ℝ) (width_meters height_meters : ℚ) : ℝ :=
  ((calculate_bbox_from_point lat lon width_meters height_meters).2.2.2 -
      (calculate_bbox_from_point lat lon width_meters height_meters).2.1) /
    ((tiles_y height_meters).toNat : ℝ)

/-- `tile_min_lat = full_bbox[1] + row * tile_height_deg`: the southern edge
latitude of the tiles in grid row `row`. -/
noncomputable def tileMinLat (lat lon : ℝ) (width_meters height_meters : ℚ) (row : ℕ) : ℝ :=
  (calculate_bbox_from_point lat lon width_meters height_meters).2.1 +
    (row : ℝ) * tile_height_deg lat lon width_meters height_meters

/-! ### Basic lemmas about the statistics -/

theorem mean_replicate (n : ℕ) (v : ℝ) (hn : n ≠ 0) :
    mean (List.replicate n v) = v := by
  simp only [mean, List.sum_replicate, List.length_replicate, nsmul_eq_mul]
  field_simp

theorem std_replicate (n : ℕ) (v : ℝ) : std (List.replicate n v) = 0 := by
  rcases Nat.eq_zero_or_pos n with h | h
  · subst h
    simp [std, pixVariance, mean]
  · have hm : mean (List.replicate n v) = v := mean_replicate n v h.ne'
    simp [std, pixVariance, hm]

theorem mean_four_ten : mean [(4 : ℝ), 10] = 7 := by
  simp [mean]
  norm_num

theorem pixVariance_four_ten : pixVariance [(4 : ℝ), 10] = 9 := by
  simp [pixVariance, mean_four_ten]
  norm_num

theorem std_four_ten : std [(4 : ℝ), 10] = 3 := by
  rw [std, pixVariance_four_ten, show (9 : ℝ) = 3 ^ 2 by norm_num,
    Real.sqrt_sq (by norm_num)]

theorem mean_zero_thirty : mean [(0 : ℝ), 30] = 15 := by
  simp [mean]
  norm_num

theorem pixVariance_zero_thirty : pixVariance [(0 : ℝ), 30] = 225 := by
  simp [pixVariance, mean_zero_thirty]
  norm_num

theorem std_zero_thirty : std [(0 : ℝ), 30] = 15 := by
  rw [std, pixVariance_zero_thirty, show (225 : ℝ) = 15 ^ 2 by norm_num,
    Real.sqrt_sq (by norm_num)]

/-- C1: for every latitude, longitude and (in particular every positive) width
and height in meters, the bounding box `(min_lon, min_lat, max_lon, max_lat)`
returned by `calculate_bbox_from_point` is symmetric around the center point,
its longitude span equals `width_meters / (2 * pi * R * cos(radians lat) / 360)`
with `R = 6371000` — inversely proportional to the cosine of the latitude —
and its latitude span equals `height_meters / (2 * pi * R / 360)`, an
expression with no occurrence of the latitude, so the latitude span is
independent of the latitude.  The embedding is a function of exactly the four
arguments, so the operation is pure and deterministic. -/
theorem bbox_symmetric_and_spans (lat lon width_meters height_meters : ℝ) :
    ((calculate_bbox_from_point lat lon width_meters height_meters).1 +
        (calculate_bbox_from_point lat lon width_meters height_meters).2.2.1) / 2 = lon ∧
    ((calculate_bbox_from_point lat lon width_meters height_meters).2.1 +
        (calculate_bbox_from_point lat lon width_meters height_meters).2.2.2) / 2 = lat ∧
    (calculate_bbox_from_point lat lon width_meters height_meters).2.2.1 -
        (calculate_bbox_from_point lat lon width_meters height_meters).1 =
      width_meters / (2 * Real.pi * 6371000 * Real.cos (lat * Real.pi / 180) / 360) ∧
    (calculate_bbox_from_point lat lon width_meters height_meters).2.2.2 -
        (calculate_bbox_from_point lat lon width_meters height_meters).2.1 =
      height_meters / (2 * Real.pi * 6371000 / 360) := by
  simp only [calculate_bbox_from_point, meters_per_deg_lon, meters_per_deg_lat, radians,
    earthRadius]
  exact ⟨by ring, by ring, by ring, by ring⟩

/-- C3: the probe blankness heuristic of `find_best_landsat_date` accepts a
decoded probe image exactly when its pixel mean exceeds 10 and its pixel
standard deviation exceeds 5; every uniform image has standard deviation 0 and
is rejected; every image with mean above 10 and std above 5 is accepted. -/
theorem probe_heuristic_spec :
    (∀ l : List ℝ, probeAccepts l ↔ (10 < mean l ∧ 5 < std l)) ∧
    (∀ (n : ℕ) (v : ℝ),
      std (List.replicate n v) = 0 ∧ ¬ probeAccepts (List.replicate n v)) ∧
    (∀ l : List ℝ, 10 < mean l → 5 < std l → probeAccepts l) := by
  refine ⟨fun l => Iff.rfl, fun n v => ⟨std_replicate n v, ?_⟩, fun l h1 h2 => ⟨h1, h2⟩⟩
  rintro ⟨-, h5⟩
  rw [std_replicate] at h5
  exact absurd h5 (by norm_num)

/-- Witness for C3: the image `[0, 30]` has mean 15 and std 15, and the probe
heuristic accepts it. -/
theorem probe_heuristic_witness :
    10 < mean [(0 : ℝ), 30] ∧ 5 < std [(0 : ℝ), 30] ∧ probeAccepts [(0 : ℝ), 30] := by
  have h1 : 10 < mean [(0 : ℝ), 30] := by rw [mean_zero_thirty]; norm_num
  have h2 : 5 < std [(0 : ℝ), 30] := by rw [std_zero_thirty]; norm_num
  exact ⟨h1, h2, probe_heuristic_spec.2.2 _ h1 h2⟩

/-- Counterexample for C4: the image `[4, 10]` (mean 7, std 3) is rejected by
the probe check (its mean does not exceed 10) but is not classified as blank by
the full-image re-check (its mean is not below 5 and its std is not below 2),
so the two checks are not equivalent: they use different thresholds
(`mean < 5 or std < 2` versus the negation of `mean > 10 and std > 5`). -/
theorem full_recheck_not_probe_equivalent :
    ¬ (fullImageBlank [(4 : ℝ), 10] ↔ ¬ probeAccepts [(4 : ℝ), 10]) := by
  intro hiff
  have hreject : ¬ probeAccepts [(4 : ℝ), 10] := by
    rintro ⟨h10, -⟩
    rw [mean_four_ten] at h10
    linarith
  rcases hiff.mpr hreject with h | h
  · rw [mean_four_ten] at h; linarith
  · rw [std_four_ten] at h; linarith

/-- C4 (amended): the full-image re-check of `download_landsat_closeup`
(`mean < 5 or std < 2`) uses strictly stricter thresholds than the probe step:
every pixel array the full-image check classifies as blank would also be
rejected by the probe check (`not (mean > 10 and std > 5)`), but not
conversely, so the implication holds only in this one direction. -/
theorem full_recheck_blank_implies_probe_reject (l : List ℝ)
    (hb : fullImageBlank l) : ¬ probeAccepts l := by
  rcases hb with h | h
  · rintro ⟨h10, -⟩; linarith
  · rintro ⟨-, h5⟩; linarith

/-- Witness for the amended C4: the uniform image `[1, 1]` is blank for the
full-image check and rejected by the probe check. -/
theorem full_recheck_witness :
    fullImageBlank (List.replicate 2 (1 : ℝ)) ∧
    ¬ probeAccepts (List.replicate 2 (1 : ℝ)) := by
  have hb : fullImageBlank (List.replicate 2 (1 : ℝ)) :=
    Or.inl (by rw [mean_replicate 2 1 (by norm_num)]; norm_num)
  exact ⟨hb, full_recheck_blank_implies_probe_reject _ hb⟩

/-- C5: `calculate_zoom` fails (raises `ValueError`) exactly on non-positive
areas; on every positive area it returns
`max(15, min(20, 19 - sqrt(area)/100)) + 1`, and every returned value lies in
the closed interval `[16, 21]`. -/
theorem calculate_zoom_spec :
    (∀ a : ℝ, a ≤ 0 → calculate_zoom a = none) ∧
    (∀ a : ℝ, 0 < a →
      calculate_zoom a = some (max 15 (min 20 (19 - Real.sqrt a / 100)) + 1)) ∧
    (∀ a z : ℝ, calculate_zoom a = some z → 16 ≤ z ∧ z ≤ 21) := by
  refine ⟨fun a ha => ?_, fun a ha => ?_, fun a z hz => ?_⟩
  · rw [calculate_zoom, if_pos ha]
  · rw [calculate_zoom, if_neg (not_le.mpr ha)]
  · rw [calculate_zoom] at hz
    by_cases ha : a ≤ 0
    · rw [if_pos ha] at hz
      exact absurd hz (by simp)
    · rw [if_neg ha] at hz
      have hz2 : max 15 (min 20 (19 - Real.sqrt a / 100)) + 1 = z := Option.some.inj hz
      have hlo : (15 : ℝ) ≤ max 15 (min 20 (19 - Real.sqrt a / 100)) := le_max_left _ _
      have hhi : max 15 (min 20 (19 - Real.sqrt a / 100)) ≤ 20 :=
        max_le (by norm_num) (min_le_left _ _)
      constructor <;> linarith

/-- Witness for C5: on area `10000` the zoom is `19`, inside `[16, 21]`. -/
theorem calculate_zoom_witness :
    0 < (10000 : ℝ) ∧
    calculate_zoom 10000 = some (max 15 (min 20 (19 - Real.sqrt 10000 / 100)) + 1) ∧
    max 15 (min 20 (19 - Real.sqrt (10000 : ℝ) / 100)) + 1 = 19 := by
  have hsq : Real.sqrt (10000 : ℝ) = 100 := by
    rw [show (10000 : ℝ) = 100 ^ 2 by norm_num, Real.sqrt_sq (by norm_num)]
  refine ⟨by norm_num, calculate_zoom_spec.2.1 10000 (by norm_num), ?_⟩
  rw [hsq, show (19 : ℝ) - 100 / 100 = 18 by norm_num,
    min_eq_right (by norm_num : (18 : ℝ) ≤ 20), max_eq_right (by norm_num : (15 : ℝ) ≤ 18)]
  norm_num

theorem find?_eq_head?_filter (p : α → Bool) (l : List α) :
    l.find? p = (l.filter p).head? := by
  induction l with
  | nil => rfl
  | cons a t ih =>
    cases h : p a with
    | true =>
      rw [List.find?_cons_of_pos _ h, List.filter_cons_of_pos h, List.head?_cons]
    | false =>
      rw [List.find?_cons_of_neg _ (by simp [h]), List.filter_cons_of_neg (by simp [h]), ih]

/-- C2: for a monthly-cadence layer, `find_best_landsat_date` generates exactly
6 candidate dates, the `i`-th being the current date minus `i * 30` days, so
consecutive candidates are 30 days apart and the list is descending (most
recent first); the candidates are probed in that order and the first accepted
one is the returned date. -/
theorem monthly_dates_spec (now : ℤ) :
    (datesToTryMonthly now).length = 6 ∧
    (∀ i : ℕ, i < 6 → (datesToTryMonthly now)[i]? = some (now - 30 * (i : ℤ))) ∧
    (∀ i : ℕ, i + 1 < 6 → ∀ d1 d2 : ℤ,
      (datesToTryMonthly now)[i]? = some d1 →
      (datesToTryMonthly now)[i + 1]? = some d2 → d1 - d2 = 30) ∧
    (∀ accept : ℤ → Bool,
      find_best_landsat_date accept now = ((datesToTryMonthly now).filter accept).head? ∧
      ∀ d : ℤ, find_best_landsat_date accept now = some d →
        accept d = true ∧ d ∈ datesToTryMonthly now) := by
  have hidx : ∀ i : ℕ, i < 6 → (datesToTryMonthly now)[i]? = some (now - 30 * (i : ℤ)) := by
    intro i hi
    rw [datesToTryMonthly, List.getElem?_map, List.getElem?_range hi]
    rfl
  refine ⟨by rw [datesToTryMonthly, List.length_map, List.length_range], hidx, ?_, ?_⟩
  · intro i hi d1 d2 h1 h2
    rw [hidx i (by omega)] at h1
    rw [hidx (i + 1) hi] at h2
    obtain rfl := Option.some.inj h1
    obtain rfl := Option.some.inj h2
    push_cast
    ring
  · intro accept
    refine ⟨find?_eq_head?_filter accept (datesToTryMonthly now), fun d hd => ?_⟩
    exact ⟨List.find?_some hd, List.mem_of_find?_eq_some hd⟩

/-- Witness for C2: with `now = 0`, the candidate at index 1 is `-30`. -/
theorem monthly_dates_witness :
    (1 : ℕ) < 6 ∧ (datesToTryMonthly 0)[1]? = some (0 - 30 * ((1 : ℕ) : ℤ)) :=
  ⟨by norm_num, (monthly_dates_spec 0).2.1 1 (by norm_num)⟩

/-- C9: `download_landsat_closeup` never fails a layer lookup: a `layer_key`
that is a key of `LAYERS` is kept, any other key is silently replaced by
`landsat_weld`, so the key actually used is always a key of `LAYERS`. -/
theorem resolve_layer_key_spec :
    (∀ k : String, (LAYERS.lookup (resolveLayerKey k)).isSome) ∧
    (∀ k : String, LAYERS.lookup k = none → resolveLayerKey k = "landsat_weld") ∧
    (∀ k : String, (LAYERS.lookup k).isSome → resolveLayerKey k = k) := by
  refine ⟨fun k => ?_, fun k hk => ?_, fun k hk => ?_⟩
  · by_cases h : (LAYERS.lookup k).isSome
    · rwa [resolveLayerKey, if_pos h]
    · rw [resolveLayerKey, if_neg h]
      decide
  · rw [resolveLayerKey, if_neg (by simp [hk])]
  · rw [resolveLayerKey, if_pos hk]

/-- Witness for C9: the unknown key `no_such_layer` resolves to
`landsat_weld`. -/
theorem resolve_layer_key_witness :
    LAYERS.lookup "no_such_layer" = none ∧
    resolveLayerKey "no_such_layer" = "landsat_weld" :=
  ⟨by decide, resolve_layer_key_spec.2.1 "no_such_layer" (by decide)⟩

/-- C6: in the vector-import pipeline a 3D coordinate tuple `(x, y, z)`
becomes `(x, y)` with `x` and `y` unchanged; the combined table is the
concatenation, in layer enumeration order, of the per-layer results; a layer
with zero features contributes nothing (and its presence does not change the
result, i.e. the run does not abort); and every row of the combined table is a
feature of some non-empty successfully read layer, tagged with that layer
name, with its geometry Z-stripped. -/
theorem vector_import_spec :
    (∀ x y z : ℝ, stripZ (x, y, some z) = (x, y)) ∧
    (∀ layers : List (String × Except String (List Feature)),
      combineLayers layers = (layers.map fun l => processLayer l.1 l.2).flatten) ∧
    (∀ (pre post : List (String × Except String (List Feature))) (nm : String),
      combineLayers (pre ++ (nm, Except.ok ([] : List Feature)) :: post) =
        combineLayers (pre ++ post)) ∧
    (∀ (layers : List (String × Except String (List Feature)))
      (t : String × List (ℝ × ℝ)), t ∈ combineLayers layers →
      ∃ l ∈ layers, ∃ fs f, l.2 = Except.ok fs ∧ fs ≠ [] ∧ f ∈ fs ∧
        t = (l.1, f.map stripZ)) := by
  refine ⟨fun x y z => rfl, fun layers => rfl, fun pre post nm => ?_, fun layers t ht => ?_⟩
  · simp [combineLayers, processLayer]
  · rw [combineLayers, List.mem_flatten] at ht
    obtain ⟨m, hm, htm⟩ := ht
    rw [List.mem_map] at hm
    obtain ⟨l, hl, rfl⟩ := hm
    obtain ⟨nm, r⟩ := l
    cases r with
    | error e => simp [processLayer] at htm
    | ok fs =>
      simp only [processLayer] at htm
      cases hfs : fs.isEmpty with
      | true =>
        rw [if_pos hfs] at htm
        exact absurd htm (List.not_mem_nil t)
      | false =>
        rw [if_neg (by simp [hfs])] at htm
        rw [List.mem_map] at htm
        obtain ⟨f, hf, rfl⟩ := htm
        exact ⟨(nm, Except.ok fs), hl, fs, f, rfl,
          fun h0 => by rw [h0] at hfs; simp at hfs, hf, rfl⟩

/-- Witness for C6: a single layer `a` holding one 3D point feature yields
exactly the row tagged `a` with the point flattened to 2D. -/
theorem vector_import_witness :
    (("a", [((1 : ℝ), (2 : ℝ))]) ∈
      combineLayers [("a", (Except.ok [[(1, 2, some 3)]] : Except String (List Feature)))]) ∧
    ∃ l ∈ ([("a", (Except.ok [[(1, 2, some 3)]] : Except String (List Feature)))] :
        List (String × Except String (List Feature))),
      ∃ fs f, l.2 = Except.ok fs ∧ fs ≠ [] ∧ f ∈ fs ∧
        ("a", [((1 : ℝ), (2 : ℝ))]) = (l.1, f.map stripZ) := by
  have hm : ("a", [((1 : ℝ), (2 : ℝ))]) ∈
      combineLayers [("a", (Except.ok [[(1, 2, some 3)]] : Except String (List Feature)))] := by
    simp [combineLayers, processLayer, stripZ]
  exact ⟨hm, vector_import_spec.2.2.2 _ _ hm⟩

theorem combineLayers_eq_nil_iff (layers : List (String × Except String (List Feature))) :
    combineLayers layers = [] ↔
      ∀ l ∈ layers, ∀ fs : List Feature, l.2 = Except.ok fs → fs = [] := by
  rw [combineLayers, List.flatten_eq_nil_iff]
  constructor
  · intro h l hl fs hfs
    have hp := h (processLayer l.1 l.2) (List.mem_map_of_mem _ hl)
    rw [hfs] at hp
    simp only [processLayer] at hp
    by_contra hne
    rw [if_neg (by simp [hne])] at hp
    exact hne (List.map_eq_nil_iff.mp hp)
  · intro h m hm
    rw [List.mem_map] at hm
    obtain ⟨l, hl, rfl⟩ := hm
    obtain ⟨nm, r⟩ := l
    cases r with
    | error e => rfl
    | ok fs =>
      have hfs0 : fs = [] := h (nm, Except.ok fs) hl fs rfl
      subst hfs0
      rfl

/-- Counterexample for C7: a file whose single layer reads successfully but is
empty refutes the claim that the run is fatal exactly when no layer at all
could be read: the run ends in the fatal `No valid layers found to import`
branch although every layer could be read. -/
theorem import_fatal_counterexample :
    importResult [("empty_layer", (Except.ok ([] : List Feature)))] =
      Except.error "No valid layers found to import" ∧
    ¬ (∀ l ∈ ([("empty_layer", (Except.ok ([] : List Feature)))] :
        List (String × Except String (List Feature))), ∃ e, l.2 = Except.error e) := by
  refine ⟨rfl, fun hall => ?_⟩
  obtain ⟨e, he⟩ := hall _ (List.mem_singleton.mpr rfl)
  exact Except.noConfusion he

/-- C7 (amended): a read failure on a single layer is skipped (removing a
failed layer from the input does not change the combined table) and processing
continues with the remaining layers; the run ends in the fatal
`No valid layers found to import` branch exactly when no layer yields any
feature, i.e. when every layer either failed to read or read as empty. -/
theorem import_pipeline_error_handling :
    (∀ (pre post : List (String × Except String (List Feature))) (nm e : String),
      combineLayers (pre ++ (nm, Except.error e) :: post) = combineLayers (pre ++ post)) ∧
    (∀ layers : List (String × Except String (List Feature)),
      importResult layers = Except.error "No valid layers found to import" ↔
        ∀ l ∈ layers, ∀ fs : List Feature, l.2 = Except.ok fs → fs = []) := by
  constructor
  · intro pre post nm e
    simp [combineLayers, processLayer]
  · intro layers
    rw [importResult]
    by_cases hc : (combineLayers layers).isEmpty
    · rw [if_pos hc]
      exact iff_of_true rfl
        ((combineLayers_eq_nil_iff layers).mp (List.isEmpty_iff.mp hc))
    · rw [if_neg hc]
      refine iff_of_false (by simp) fun hR => ?_
      exact hc (List.isEmpty_iff.mpr ((combineLayers_eq_nil_iff layers).mpr hR))

/-- Witness for the amended C7: a single layer whose read fails sends the run
to the fatal branch. -/
theorem import_fatal_witness :
    (∀ l ∈ ([("bad_layer", (Except.error "read failed" : Except String (List Feature)))] :
        List (String × Except String (List Feature))),
      ∀ fs : List Feature, l.2 = Except.ok fs → fs = []) ∧
    importResult [("bad_layer", (Except.error "read failed" : Except String (List Feature)))] =
      Except.error "No valid layers found to import" := by
  have hcond : ∀ l ∈ ([("bad_layer",
      (Except.error "read failed" : Except String (List Feature)))] :
        List (String × Except String (List Feature))),
      ∀ fs : List Feature, l.2 = Except.ok fs → fs = [] := by
    intro l hl fs hfs
    rw [List.mem_singleton] at hl
    subst hl
    exact Except.noConfusion hfs
  exact ⟨hcond, (import_pipeline_error_handling.2 _).mpr hcond⟩

theorem mem_tileGrid (ty tx : ℕ) (rc : ℕ × ℕ) :
    rc ∈ tileGrid ty tx ↔ rc.1 < ty ∧ rc.2 < tx := by
  obtain ⟨r, c⟩ := rc
  simp only [tileGrid, List.mem_flatMap, List.mem_map, List.mem_range]
  constructor
  · rintro ⟨a, ha, b, hb, he⟩
    rw [Prod.mk.injEq] at he
    obtain ⟨rfl, rfl⟩ := he
    exact ⟨ha, hb⟩
  · rintro ⟨hr, hc⟩
    exact ⟨r, hr, c, hc, rfl⟩

theorem foldl_tileStep_dims (ty : ℕ) (tileRes : ℕ → ℕ → Option Img)
    (L : List (ℕ × ℕ)) (acc : Img × ℕ) :
    ((L.foldl (tileStep ty tileRes) acc).1).width = acc.1.width ∧
    ((L.foldl (tileStep ty tileRes) acc).1).height = acc.1.height := by
  induction L generalizing acc with
  | nil => exact ⟨rfl, rfl⟩
  | cons rc L ih =>
    rw [List.foldl_cons]
    refine ⟨(ih (tileStep ty tileRes acc rc)).1.trans ?_,
      (ih (tileStep ty tileRes acc rc)).2.trans ?_⟩
    · cases h : tileRes rc.1 rc.2 <;> simp [tileStep, h, pasteImg]
    · cases h : tileRes rc.1 rc.2 <;> simp [tileStep, h, pasteImg]

theorem foldl_tileStep_count (ty : ℕ) (tileRes : ℕ → ℕ → Option Img)
    (L : List (ℕ × ℕ)) (acc : Img × ℕ) :
    (L.foldl (tileStep ty tileRes) acc).2 =
      acc.2 + L.countP fun rc => (tileRes rc.1 rc.2).isSome := by
  induction L generalizing acc with
  | nil => simp
  | cons rc L ih =>
    rw [List.foldl_cons, ih, List.countP_cons]
    cases h : tileRes rc.1 rc.2 with
    | none => simp [tileStep, h]
    | some t =>
      simp [tileStep, h]
      omega

theorem foldl_tileStep_pix (ty : ℕ) (tileRes : ℕ → ℕ → Option Img)
    (hsize : ∀ r c t, tileRes r c = some t → t.width = 1024 ∧ t.height = 1024)
    (x y : ℕ) (L : List (ℕ × ℕ))
    (hL : ∀ rc ∈ L, (tileRes rc.1 rc.2).isSome →
      ¬ (rc.2 * 1024 ≤ x ∧ x < rc.2 * 1024 + 1024 ∧
         (ty - rc.1 - 1) * 1024 ≤ y ∧ y < (ty - rc.1 - 1) * 1024 + 1024))
    (acc : Img × ℕ) :
    ((L.foldl (tileStep ty tileRes) acc).1).pix x y = acc.1.pix x y := by
  induction L generalizing acc with
  | nil => rfl
  | cons rc L ih =>
    rw [List.foldl_cons,
      ih (fun rc2 h2 => hL rc2 (List.mem_cons_of_mem _ h2)) (tileStep ty tileRes acc rc)]
    cases h : tileRes rc.1 rc.2 with
    | none => simp [tileStep, h]
    | some t =>
      have havoid := hL rc (List.mem_cons_self _ _) (by rw [h]; rfl)
      obtain ⟨hw, hh⟩ := hsize rc.1 rc.2 t h
      simp only [tileStep, h, pasteImg, pixels_per_tile]
      rw [if_neg (by rw [hw, hh]; exact havoid)]

theorem max_one_int_trunc (q : ℚ) : max 1 (int_trunc q) = max 1 ⌊q⌋ := by
  rw [int_trunc]
  by_cases h : 0 ≤ q
  · rw [if_pos h]
  · rw [if_neg h]
    push_neg at h
    have hceil : ⌈q⌉ ≤ 0 := Int.ceil_le.mpr (by exact_mod_cast h.le)
    have hfloor : ⌊q⌋ ≤ ⌈q⌉ := Int.floor_le_ceil q
    rw [max_eq_left (by omega), max_eq_left (by omega)]

theorem tiles_x_eq (w : ℚ) : tiles_x w = max 1 ⌊w / 150⌋ := by
  simp only [tiles_x, tile_size_meters]
  rw [max_one_int_trunc]

theorem tiles_y_eq (h : ℚ) : tiles_y h = max 1 ⌊h / 150⌋ := by
  simp only [tiles_y, tile_size_meters]
  rw [max_one_int_trunc]

theorem one_le_tiles_x_toNat (w : ℚ) : 1 ≤ (tiles_x w).toNat := by
  have h : (1 : ℤ) ≤ tiles_x w := le_max_left _ _
  omega

theorem one_le_tiles_y_toNat (h : ℚ) : 1 ≤ (tiles_y h).toNat := by
  have h1 : (1 : ℤ) ≤ tiles_y h := le_max_left _ _
  omega

theorem tileFold_count (w h : ℚ) (tileRes : ℕ → ℕ → Option Img) :
    (tileFold w h tileRes).2 =
      (tileGrid (tiles_y h).toNat (tiles_x w).toNat).countP
        fun rc => (tileRes rc.1 rc.2).isSome := by
  rw [tileFold, foldl_tileStep_count]
  exact Nat.zero_add _

theorem tileFold_dims (w h : ℚ) (tileRes : ℕ → ℕ → Option Img) :
    ((tileFold w h tileRes).1).width = 1024 * (tiles_x w).toNat ∧
    ((tileFold w h tileRes).1).height = 1024 * (tiles_y h).toNat := by
  rw [tileFold]
  refine ⟨(foldl_tileStep_dims _ _ _ _).1.trans ?_, (foldl_tileStep_dims _ _ _ _).2.trans ?_⟩
  · rfl
  · rfl

theorem tileFold_blank_pix (w h : ℚ) (tileRes : ℕ → ℕ → Option Img)
    (row col x y : ℕ)
    (hsize : ∀ r c t, tileRes r c = some t → t.width = 1024 ∧ t.height = 1024)
    (hrow : row < (tiles_y h).toNat) (hcol : col < (tiles_x w).toNat)
    (hnone : tileRes row col = none)
    (hx1 : col * 1024 ≤ x) (hx2 : x < col * 1024 + 1024)
    (hy1 : ((tiles_y h).toNat - row - 1) * 1024 ≤ y)
    (hy2 : y < ((tiles_y h).toNat - row - 1) * 1024 + 1024) :
    ((tileFold w h tileRes).1).pix x y = 0 := by
  have hL : ∀ rc ∈ tileGrid (tiles_y h).toNat (tiles_x w).toNat,
      (tileRes rc.1 rc.2).isSome →
      ¬ (rc.2 * 1024 ≤ x ∧ x < rc.2 * 1024 + 1024 ∧
         ((tiles_y h).toNat - rc.1 - 1) * 1024 ≤ y ∧
         y < ((tiles_y h).toNat - rc.1 - 1) * 1024 + 1024) := by
    intro rc hrc hs
    rintro ⟨ha1, ha2, ha3, ha4⟩
    obtain ⟨r, c⟩ := rc
    rw [mem_tileGrid] at hrc
    obtain ⟨hr, hc⟩ := hrc
    have hceq : c = col := by omega
    have hreq : r = row := by omega
    subst hceq
    subst hreq
    rw [hnone] at hs
    simp at hs
  rw [tileFold, foldl_tileStep_pix _ _ hsize x y _ hL _]
  rfl

/-- C8: `download_with_tile_method` builds a grid of
`tiles_x = max(1, floor(width_meters/150))` by
`tiles_y = max(1, floor(height_meters/150))` tiles and a canvas of exactly
`(1024 * tiles_x, 1024 * tiles_y)` pixels; it returns an image exactly when at
least one tile succeeded and raises `Failed to download any tiles` exactly
when zero tiles succeeded; the function is total, and any failed tile leaves
its whole canvas region blank (pixel value 0) in the returned image, tile
responses being `pixels_per_tile` square as requested. -/
theorem tile_method_spec :
    (∀ w : ℚ, tiles_x w = max 1 ⌊w / 150⌋) ∧
    (∀ h : ℚ, tiles_y h = max 1 ⌊h / 150⌋) ∧
    (∀ (w h : ℚ) (tileRes : ℕ → ℕ → Option Img) (img : Img),
      download_with_tile_method w h tileRes = Except.ok img →
      img.width = 1024 * (tiles_x w).toNat ∧ img.height = 1024 * (tiles_y h).toNat) ∧
    (∀ (w h : ℚ) (tileRes : ℕ → ℕ → Option Img),
      (∃ img, download_with_tile_method w h tileRes = Except.ok img) ↔
      (∃ row col, row < (tiles_y h).toNat ∧ col < (tiles_x w).toNat ∧
        (tileRes row col).isSome)) ∧
    (∀ (w h : ℚ) (tileRes : ℕ → ℕ → Option Img),
      download_with_tile_method w h tileRes = Except.error "Failed to download any tiles" ↔
      (∀ row col : ℕ, row < (tiles_y h).toNat → col < (tiles_x w).toNat →
        tileRes row col = none)) ∧
    (∀ (w h : ℚ) (tileRes : ℕ → ℕ → Option Img) (img : Img) (row col x y : ℕ),
      (∀ r c t, tileRes r c = some t → t.width = 1024 ∧ t.height = 1024) →
      row < (tiles_y h).toNat → col < (tiles_x w).toNat →
      tileRes row col = none →
      col * 1024 ≤ x → x < col * 1024 + 1024 →
      ((tiles_y h).toNat - row - 1) * 1024 ≤ y →
      y < ((tiles_y h).toNat - row - 1) * 1024 + 1024 →
      download_with_tile_method w h tileRes = Except.ok img →
      img.pix x y = 0) := by
  refine ⟨tiles_x_eq, tiles_y_eq, ?_, ?_, ?_, ?_⟩
  · intro w h tileRes img hok
    rw [download_with_tile_method] at hok
    by_cases hc : 0 < (tileFold w h tileRes).2
    · rw [if_pos hc, Except.ok.injEq] at hok
      subst hok
      exact tileFold_dims w h tileRes
    · rw [if_neg hc] at hok
      exact Except.noConfusion hok
  · intro w h tileRes
    constructor
    · rintro ⟨img, hok⟩
      rw [download_with_tile_method] at hok
      by_cases hc : 0 < (tileFold w h tileRes).2
      · rw [tileFold_count] at hc
        obtain ⟨rc, hrc, hp⟩ := List.countP_pos_iff.mp hc
        rw [mem_tileGrid] at hrc
        exact ⟨rc.1, rc.2, hrc.1, hrc.2, hp⟩
      · rw [if_neg hc] at hok
        exact Except.noConfusion hok
    · rintro ⟨row, col, hr, hc2, hs⟩
      have hpos : 0 < (tileFold w h tileRes).2 := by
        rw [tileFold_count]
        exact List.countP_pos_iff.mpr ⟨(row, col), (mem_tileGrid _ _ _).mpr ⟨hr, hc2⟩, hs⟩
      exact ⟨(tileFold w h tileRes).1, by rw [download_with_tile_method, if_pos hpos]⟩
  · intro w h tileRes
    rw [download_with_tile_method]
    by_cases hc : 0 < (tileFold w h tileRes).2
    · rw [if_pos hc]
      refine iff_of_false (by simp) fun hall => ?_
      rw [tileFold_count] at hc
      obtain ⟨rc, hrc, hp⟩ := List.countP_pos_iff.mp hc
      rw [mem_tileGrid] at hrc
      rw [hall rc.1 rc.2 hrc.1 hrc.2] at hp
      simp at hp
    · rw [if_neg hc]
      refine iff_of_true rfl fun row col hr hc2 => ?_
      rw [tileFold_count] at hc
      have h0 : (tileGrid (tiles_y h).toNat (tiles_x w).toNat).countP
          (fun rc => (tileRes rc.1 rc.2).isSome) = 0 := by omega
      have h1 := List.countP_eq_zero.mp h0 (row, col) ((mem_tileGrid _ _ _).mpr ⟨hr, hc2⟩)
      exact Option.not_isSome_iff_eq_none.mp (by simpa using h1)
  · intro w h tileRes img row col x y hsize hr hc2 hnone hx1 hx2 hy1 hy2 hok
    rw [download_with_tile_method] at hok
    by_cases hc : 0 < (tileFold w h tileRes).2
    · rw [if_pos hc, Except.ok.injEq] at hok
      subst hok
      exact tileFold_blank_pix w h tileRes row col x y hsize hr hc2 hnone hx1 hx2 hy1 hy2
    · rw [if_neg hc] at hok
      exact Except.noConfusion hok

/-- Witness for C8: with a 10m by 10m request (a 1-by-1 grid) where every
tile fails, the method raises the `Failed to download any tiles` exception. -/
theorem tile_method_witness :
    (∀ row col : ℕ, row < (tiles_y (10 : ℚ)).toNat → col < (tiles_x (10 : ℚ)).toNat →
      (fun _ _ => (none : Option Img)) row col = none) ∧
    download_with_tile_method 10 10 (fun _ _ => none) =
      Except.error "Failed to download any tiles" :=
  ⟨fun _ _ _ _ => rfl,
   (tile_method_spec.2.2.2.2.1 10 10 (fun _ _ => none)).mpr fun _ _ _ _ => rfl⟩

theorem bbox_lat_span (lat lon w h : ℝ) :
    (calculate_bbox_from_point lat lon w h).2.2.2 -
      (calculate_bbox_from_point lat lon w h).2.1 = h / meters_per_deg_lat := by
  simp only [calculate_bbox_from_point]
  ring

theorem meters_per_deg_lat_pos : 0 < meters_per_deg_lat := by
  rw [meters_per_deg_lat, earthRadius]
  positivity

theorem tile_height_deg_pos (lat lon : ℝ) (w h : ℚ) (hh : 0 < h) :
    0 < tile_height_deg lat lon w h := by
  rw [tile_height_deg, bbox_lat_span]
  have h1 : (0 : ℝ) < (h : ℝ) := by exact_mod_cast hh
  have h2 : (0 : ℝ) < (((tiles_y h).toNat : ℕ) : ℝ) := by
    have h3 := one_le_tiles_y_toNat h
    exact_mod_cast Nat.lt_of_lt_of_le Nat.zero_lt_one h3
  exact div_pos (div_pos h1 meters_per_deg_lat_pos) h2

/-- C10: for every grid position `(row, col)` of the tile loop, the paste
offset `(col * 1024, (tiles_y - row - 1) * 1024)` places the whole
1024-pixel tile inside the `(1024 * tiles_x, 1024 * tiles_y)` canvas, and
the vertical index is flipped: the row of highest index gets `y = 0` (the
top of the image), `y` offsets strictly decrease as the row index grows, and
(for a positive requested height) a larger row index means a strictly larger
tile latitude, so the highest-latitude row is placed at the top. -/
theorem tile_offsets_spec (w h : ℚ) (row col : ℕ)
    (hrow : row < (tiles_y h).toNat) (hcol : col < (tiles_x w).toNat) :
    (col * 1024 + 1024 ≤ 1024 * (tiles_x w).toNat ∧
     ((tiles_y h).toNat - row - 1) * 1024 + 1024 ≤ 1024 * (tiles_y h).toNat) ∧
    (row = (tiles_y h).toNat - 1 → ((tiles_y h).toNat - row - 1) * 1024 = 0) ∧
    (∀ row2 : ℕ, row < row2 → row2 < (tiles_y h).toNat →
      ((tiles_y h).toNat - row2 - 1) * 1024 < ((tiles_y h).toNat - row - 1) * 1024 ∧
      ∀ lat lon : ℝ, 0 < h →
        tileMinLat lat lon w h row < tileMinLat lat lon w h row2) := by
  refine ⟨⟨by omega, by omega⟩, fun h1 => by omega, fun row2 h1 h2 => ⟨by omega, ?_⟩⟩
  intro lat lon hh
  simp only [tileMinLat]
  have hthd := tile_height_deg_pos lat lon w h hh
  have hcast : (row : ℝ) < (row2 : ℝ) := by exact_mod_cast h1
  exact add_lt_add_left (mul_lt_mul_of_pos_right hcast hthd) _

theorem tiles_x_300_toNat : (tiles_x (300 : ℚ)).toNat = 2 := by
  rw [tiles_x_eq, show ⌊(300 : ℚ) / 150⌋ = 2 from by norm_num]
  decide

theorem tiles_y_300_toNat : (tiles_y (300 : ℚ)).toNat = 2 := by
  rw [tiles_y_eq, show ⌊(300 : ℚ) / 150⌋ = 2 from by norm_num]
  decide

/-- Witness for C10: a 300m by 300m request gives a 2-by-2 grid; for
`row = 0, col = 0` and `row2 = 1`, the offsets are in bounds, row 1 is pasted
above row 0, and row 1 has the larger tile latitude. -/
theorem tile_offsets_witness :
    (0 < (tiles_y (300 : ℚ)).toNat ∧ 0 < (tiles_x (300 : ℚ)).toNat ∧
     (0 : ℕ) < 1 ∧ 1 < (tiles_y (300 : ℚ)).toNat ∧ (0 : ℚ) < 300) ∧
    ((tiles_y (300 : ℚ)).toNat - 1 - 1) * 1024 <
      ((tiles_y (300 : ℚ)).toNat - 0 - 1) * 1024 ∧
    tileMinLat 0 0 300 300 0 < tileMinLat 0 0 300 300 1 := by
  have hty := tiles_y_300_toNat
  have htx := tiles_x_300_toNat
  have main := tile_offsets_spec 300 300 0 0 (by rw [hty]; norm_num) (by rw [htx]; norm_num)
  have part := main.2.2 1 (by norm_num) (by rw [hty]; norm_num)
  exact ⟨⟨by rw [hty]; norm_num, by rw [htx]; norm_num, by norm_num,
    by rw [hty]; norm_num, by norm_num⟩, part.1, part.2 0 0 (by norm_num)⟩

end SpaceApps
